import Mathlib

/-!
Verification of the ai-content-studio backend (src/backend/server.js).

The server is an Express HTTP gateway over three external collaborators:
an identity verifier (Firebase Auth), a hierarchical document store
(Firestore, path users/{uid}/chats/{chatId}/messages/{msgId}), and a text
generator (Gemini).  We embed the gateway's route table, its
authentication middleware and its three data routes as pure Lean
functions over an explicit store state; collaborators are parameters
(functions returning Except to model thrown exceptions).  Wall-clock
timestamps are modelled by a monotone counter in the store: each
new Date().toISOString() call in the source reads the counter and the
store advances it, so later writes carry strictly larger timestamps.
-/

namespace ContentStudio

/-- A conversation document as created by POST /generate:
fields title and createdAt (timestamp modelled as Nat). -/
structure ChatDoc where
  title : String
  createdAt : Nat
deriving Repr, DecidableEq

/-- A message document: fields role, text, createdAt. -/
structure MsgDoc where
  role : String
  text : String
  createdAt : Nat
deriving Repr, DecidableEq

/-- The Firestore state visible to this server: chat documents keyed by
(uid, chatId) and message documents keyed by (uid, chatId); nextId feeds
the generated-id supply of collection add, clock feeds new Date(). -/
structure Store where
  chats : List (String × String × ChatDoc)
  messages : List (String × String × MsgDoc)
  nextId : Nat
  clock : Nat
deriving Repr, DecidableEq

def emptyStore : Store := { chats := [], messages := [], nextId := 0, clock := 0 }

/-- Generated document id for the n-th add call (opaque in Firestore;
modelled as a counter-indexed name). -/
def mkChatId (n : Nat) : String := "c" ++ toString n

/-- JS falsy test on a possibly-absent string field:
undefined and the empty string are falsy. -/
def falsy : Option String → Bool
  | none => true
  | some s => s.isEmpty

/-- Body of POST /generate: the three destructured fields, each possibly
absent from the JSON body. -/
structure GenBody where
  topic : Option String
  platform : Option String
  tone : Option String
deriving Repr, DecidableEq

/-- If sep is a prefix of l, the remainder of l after it. -/
def stripSep : List Char → List Char → Option (List Char)
  | [], rest => some rest
  | _ :: _, [] => none
  | c :: cs, x :: xs => if c = x then stripSep cs xs else none

/-- JS String.split with a non-empty separator, on char lists: split at
each non-overlapping occurrence of sep, left to right.  fuel bounds the
recursion; with fuel at least the list length (and sep non-empty) the
fallback branch is never taken. -/
def splitAux (sep : List Char) : Nat → List Char → List (List Char)
  | _, [] => [[]]
  | 0, l => [l]
  | fuel + 1, x :: xs =>
    match stripSep sep (x :: xs) with
    | some rest => [] :: splitAux sep fuel rest
    | none =>
      match splitAux sep fuel xs with
      | [] => [[x]]
      | y :: ys => (x :: y) :: ys

/-- JS s.split(sep) for a non-empty separator string. -/
def jsSplit (sep s : String) : List String :=
  (splitAux sep.toList s.toList.length s.toList).map List.asString

/-- JS s.substring(0, n): the first min(n, length) characters. -/
def jsTake (s : String) (n : Nat) : String := (s.toList.take n).asString

/-- title: topic.substring(0, 25) + '...' from the chat-creation write. -/
def mkTitle (topic : String) : String := jsTake topic 25 ++ "..."

/-- The user-role message text: template
**Topic:** t\n**Platform:** p\n**Tone:** n from the /generate handler. -/
def userRequestText (topic platform tone : String) : String :=
  "**Topic:** " ++ topic ++ "\n**Platform:** " ++ platform ++ "\n**Tone:** " ++ tone

/-- The prompt sent to the content generator by the /generate handler. -/
def specializedPrompt (topic platform tone : String) : String :=
  "You are an expert social media manager. Generate a post based on this request:\n- Topic: \"" ++
    topic ++ "\"\n- Platform: \"" ++ platform ++ "\"\n- Tone: \"" ++ tone ++ "\""

/-- Outcome of the /generate handler body (after authentication):
invalid is the 400 validation response, failure the catch-all 500,
success the 200 payload {chatId, userRequest, response}. -/
inductive GenOutcome where
  | invalid : GenOutcome
  | failure (details : String) : GenOutcome
  | success (chatId userRequest response : String) : GenOutcome
deriving Repr, DecidableEq

/-- HTTP status of each /generate outcome. -/
def GenOutcome.status : GenOutcome → Nat
  | invalid => 400
  | failure _ => 500
  | success _ _ _ => 200

/-- The POST /generate handler body (source lines 93-143), with the
content generator passed in as a fallible function.  Sequence: validate,
add chat doc, add user message, call the generator, add model message,
assemble the JSON payload; the catch block turns a generator throw into
a 500 leaving all prior writes in place. -/
def postGenerate (gen : String → Except String String) (s : Store) (uid : String)
    (b : GenBody) : Store × GenOutcome :=
  if falsy b.topic || falsy b.platform || falsy b.tone then
    (s, GenOutcome.invalid)
  else
    let topic := b.topic.getD ""
    let platform := b.platform.getD ""
    let tone := b.tone.getD ""
    let cid := mkChatId s.nextId
    let s1 : Store :=
      { chats := s.chats ++ [(uid, cid, { title := mkTitle topic, createdAt := s.clock })],
        messages := s.messages, nextId := s.nextId + 1, clock := s.clock + 1 }
    let ur := userRequestText topic platform tone
    let s2 : Store :=
      { s1 with
        messages := s1.messages ++ [(uid, cid, { role := "user", text := ur, createdAt := s1.clock })],
        clock := s1.clock + 1 }
    match gen (specializedPrompt topic platform tone) with
    | Except.error e => (s2, GenOutcome.failure e)
    | Except.ok txt =>
      let s3 : Store :=
        { s2 with
          messages := s2.messages ++ [(uid, cid, { role := "model", text := txt, createdAt := s2.clock })],
          clock := s2.clock + 1 }
      (s3, GenOutcome.success cid ur txt)

/-- Message documents of a raw message list lying under the path
users/uid/chats/cid/messages. -/
def msgsUnder (l : List (String × String × MsgDoc)) (uid cid : String) : List MsgDoc :=
  (l.filter (fun e => e.1 == uid && e.2.1 == cid)).map (fun e => e.2.2)

/-- Message documents stored under users/uid/chats/cid/messages, in
document order (the query path of GET /chat/:chatId). -/
def messagesFor (s : Store) (uid cid : String) : List MsgDoc :=
  msgsUnder s.messages uid cid

/-- Insert a message into a createdAt-sorted list (stable). -/
def insertByCreated (m : MsgDoc) : List MsgDoc → List MsgDoc
  | [] => [m]
  | x :: xs => if m.createdAt ≤ x.createdAt then m :: x :: xs else x :: insertByCreated m xs

/-- orderBy createdAt ascending, as applied by GET /chat/:chatId. -/
def sortByCreated : List MsgDoc → List MsgDoc
  | [] => []
  | x :: xs => insertByCreated x (sortByCreated xs)

/-- The GET /chat/:chatId handler body (source lines 77-90): query the
messages subcollection under the authenticated user's own chat path,
ordered by createdAt ascending. -/
def getChatMessages (s : Store) (uid cid : String) : List MsgDoc :=
  sortByCreated (messagesFor s uid cid)

/-- Full response of GET /chat/:chatId on the success path:
status 200 with the ordered message list. -/
def getChatResp (s : Store) (uid cid : String) : Nat × List MsgDoc :=
  (200, getChatMessages s uid cid)

/-- Token extraction of the verifyToken middleware:
req.headers.authorization?.split('Bearer ')[1]. -/
def rawToken (authHeader : Option String) : Option String :=
  authHeader.bind (fun h => (jsSplit "Bearer " h).get? 1)

/-- Result of a protected route: noToken is the 401 response, badToken
the 403 response, ok wraps the route handler's own result. -/
inductive Handled (α : Type) where
  | noToken : Handled α
  | badToken (details : String) : Handled α
  | ok (a : α) : Handled α
deriving Repr

/-- HTTP status of a protected-route result, given the status function
of the inner handler result. -/
def Handled.statusWith (inner : α → Nat) : Handled α → Nat
  | noToken => 401
  | badToken _ => 403
  | ok a => inner a

/-- The verifyToken middleware composed with a route handler
(source lines 37-52): missing or empty token yields 401 before any
collaborator call; a verifier rejection yields 403 and the handler
never runs; otherwise the handler runs as the verified uid. -/
def handleProtected (verifier : String → Except String String)
    (handler : String → Store → Store × α) (authHeader : Option String) (s : Store) :
    Store × Handled α :=
  match rawToken authHeader with
  | none => (s, Handled.noToken)
  | some tok =>
    if tok.isEmpty then (s, Handled.noToken)
    else
      match verifier tok with
      | Except.error e => (s, Handled.badToken e)
      | Except.ok uid =>
        let r := handler uid s
        (r.1, Handled.ok r.2)

/-- HTTP method of a request. -/
inductive Method where
  | GET : Method
  | POST : Method
deriving Repr, DecidableEq

/-- The Express route registrations of server.js, in order:
GET /test-auth, GET /history, GET /chat/:chatId, POST /generate. -/
def registeredRoutes : List (Method × String) :=
  [(Method.GET, "/test-auth"), (Method.GET, "/history"),
   (Method.GET, "/chat/:chatId"), (Method.POST, "/generate")]

/-- One path segment matches a pattern segment: a :param segment matches
any non-empty segment, a literal segment matches itself. -/
def segMatches (pat seg : String) : Bool :=
  match pat.toList with
  | ':' :: _ => !seg.isEmpty
  | _ => pat == seg

/-- Express path matching of a registered pattern against a request path. -/
def pathMatches (pattern path : String) : Bool :=
  let ps := jsSplit "/" pattern
  let qs := jsSplit "/" path
  ps.length == qs.length && (List.zip ps qs).all (fun pq => segMatches pq.1 pq.2)

/-- The route (if any) that Express dispatches a request to. -/
def routeFor (m : Method) (path : String) : Option String :=
  ((registeredRoutes.filter (fun r => r.1 == m && pathMatches r.2 path)).head?).map (fun r => r.2)

/-- Dispatch result: a matched route runs its handler; an unmatched
request gets the framework's default not-found response. -/
inductive Dispatch where
  | notFound : Dispatch
  | handled (route : String) : Dispatch
deriving Repr, DecidableEq

def dispatch (m : Method) (path : String) : Dispatch :=
  match routeFor m path with
  | none => Dispatch.notFound
  | some r => Dispatch.handled r

/-- A chat document exists under (uid, cid). -/
def hasChat (s : Store) (uid cid : String) : Bool :=
  s.chats.any (fun c => c.1 == uid && c.2.1 == cid)

/-- Store invariant maintained by the server: every message document
lies under a chat path whose chat document exists (messages are only
ever written immediately after their chat document). -/
def MessagesHaveChats (s : Store) : Prop :=
  ∀ e ∈ s.messages, hasChat s e.1 e.2.1 = true

/-- Unfolding of the /generate handler on a valid body when the
generator succeeds: chat document, user message and model message are
appended in sequence with strictly increasing timestamps, and the
response carries the generated chat id, the formatted user request and
the generator's text. -/
theorem postGenerate_ok_eq (gen : String → Except String String) (s : Store) (uid : String)
    (b : GenBody) (hT : falsy b.topic = false) (hP : falsy b.platform = false)
    (hN : falsy b.tone = false) (txt : String)
    (hGen : gen (specializedPrompt (b.topic.getD "") (b.platform.getD "") (b.tone.getD "")) =
      Except.ok txt) :
    postGenerate gen s uid b =
      ({ chats := s.chats ++ [(uid, mkChatId s.nextId,
           { title := mkTitle (b.topic.getD ""), createdAt := s.clock })],
         messages := s.messages ++
           [(uid, mkChatId s.nextId,
             { role := "user",
               text := userRequestText (b.topic.getD "") (b.platform.getD "") (b.tone.getD ""),
               createdAt := s.clock + 1 }),
            (uid, mkChatId s.nextId, { role := "model", text := txt, createdAt := s.clock + 2 })],
         nextId := s.nextId + 1, clock := s.clock + 3 },
       GenOutcome.success (mkChatId s.nextId)
         (userRequestText (b.topic.getD "") (b.platform.getD "") (b.tone.getD "")) txt) := by
  simp [postGenerate, hT, hP, hN, hGen]

/-- Unfolding of the /generate handler on a valid body when the
generator throws: the chat document and the user message are already
persisted and stay persisted; the outcome is the catch-all failure. -/
theorem postGenerate_err_eq (gen : String → Except String String) (s : Store) (uid : String)
    (b : GenBody) (hT : falsy b.topic = false) (hP : falsy b.platform = false)
    (hN : falsy b.tone = false) (e : String)
    (hGen : gen (specializedPrompt (b.topic.getD "") (b.platform.getD "") (b.tone.getD "")) =
      Except.error e) :
    postGenerate gen s uid b =
      ({ chats := s.chats ++ [(uid, mkChatId s.nextId,
           { title := mkTitle (b.topic.getD ""), createdAt := s.clock })],
         messages := s.messages ++
           [(uid, mkChatId s.nextId,
             { role := "user",
               text := userRequestText (b.topic.getD "") (b.platform.getD "") (b.tone.getD ""),
               createdAt := s.clock + 1 })],
         nextId := s.nextId + 1, clock := s.clock + 2 },
       GenOutcome.failure e) := by
  simp [postGenerate, hT, hP, hN, hGen]

/-- Messages stored under a path nobody has written to form the empty
list. -/
theorem msgsUnder_eq_nil (l : List (String × String × MsgDoc)) (uid cid : String)
    (h : ∀ e ∈ l, ¬(e.1 = uid ∧ e.2.1 = cid)) :
    msgsUnder l uid cid = [] := by
  unfold msgsUnder
  rw [List.map_eq_nil_iff, List.filter_eq_nil_iff]
  intro e he
  simp only [Bool.and_eq_true, beq_iff_eq]
  exact fun hc => h e he ⟨hc.1, hc.2⟩

/-- The path query distributes over appended write batches. -/
theorem msgsUnder_append (l1 l2 : List (String × String × MsgDoc)) (uid cid : String) :
    msgsUnder (l1 ++ l2) uid cid = msgsUnder l1 uid cid ++ msgsUnder l2 uid cid := by
  simp [msgsUnder]

/-- A generator stub that always succeeds (concrete collaborator for
closed instances). -/
def genOk : String → Except String String := fun _ => Except.ok "Fresh kicks are here!"

/-- A generator stub that always throws (concrete collaborator for
closed instances). -/
def genErr : String → Except String String := fun _ => Except.error "quota exceeded"

/-- The worked example input of the specification. -/
def exampleBody : GenBody :=
  { topic := some "Launch of new sneaker", platform := some "Instagram", tone := some "Excited" }

/-- C3 counterexample: no registered route of the server handles
GET /; there is no health-check operation at that path. -/
theorem get_root_has_no_handler : routeFor Method.GET "/" = none := by decide

/-- C3 (amended): the gateway registers no route at path /; a GET /
request matches no registered route and receives the framework's
default not-found dispatch rather than a liveness response. -/
theorem get_root_dispatches_not_found :
    dispatch Method.GET "/" = Dispatch.notFound ∧ ∀ r ∈ registeredRoutes, r.2 ≠ "/" := by
  constructor
  · decide
  · decide

/-- C2 counterexample: on the specification's own example input the
stored title is "Launch of new sneaker..." (the topic has only 21
characters, so substring(0, 25) keeps all of it), not the
"Launch of new sneake..." the specification states. -/
theorem title_example_mismatch :
    (postGenerate genOk emptyStore "u1" exampleBody).1.chats =
      [("u1", "c0", { title := "Launch of new sneaker...", createdAt := 0 })] ∧
    ("Launch of new sneaker..." : String) ≠ "Launch of new sneake..." := by
  constructor
  · rfl
  · decide

/-- C2 (amended): for every valid /generate body the created
conversation's title is the first min(25, length) characters of the
topic followed by the ellipsis marker, i.e. topic.take 25 ++ "...". -/
theorem generate_title_truncates_topic (gen : String → Except String String) (s : Store)
    (uid : String) (b : GenBody) (hT : falsy b.topic = false) (hP : falsy b.platform = false)
    (hN : falsy b.tone = false) :
    (postGenerate gen s uid b).1.chats =
      s.chats ++ [(uid, mkChatId s.nextId,
        { title := jsTake (b.topic.getD "") 25 ++ "...", createdAt := s.clock })] := by
  cases hg : gen (specializedPrompt (b.topic.getD "") (b.platform.getD "") (b.tone.getD "")) with
  | error e =>
    rw [postGenerate_err_eq gen s uid b hT hP hN e hg]
    rfl
  | ok txt =>
    rw [postGenerate_ok_eq gen s uid b hT hP hN txt hg]
    rfl

/-- C2 witness: the amended title equation at the specification's
example input on the empty store. -/
theorem generate_title_truncates_topic_witness :
    falsy exampleBody.topic = false ∧ falsy exampleBody.platform = false ∧
    falsy exampleBody.tone = false ∧
    (postGenerate genOk emptyStore "u1" exampleBody).1.chats =
      emptyStore.chats ++ [("u1", mkChatId emptyStore.nextId,
        { title := jsTake (exampleBody.topic.getD "") 25 ++ "...",
          createdAt := emptyStore.clock })] :=
  ⟨rfl, rfl, rfl,
    generate_title_truncates_topic genOk emptyStore "u1" exampleBody rfl rfl rfl⟩

/-- C4: a /generate body with any missing or falsy field yields the 400
validation outcome and leaves the store exactly as it was, for every
generator (so the generator is never invoked and nothing is written). -/
theorem invalid_generate_400_no_writes (gen : String → Except String String) (s : Store)
    (uid : String) (b : GenBody)
    (h : (falsy b.topic || falsy b.platform || falsy b.tone) = true) :
    postGenerate gen s uid b = (s, GenOutcome.invalid) ∧
    GenOutcome.status GenOutcome.invalid = 400 := by
  constructor
  · simp [postGenerate, h]
  · rfl

/-- C4 witness: an empty topic is rejected with 400 and no writes. -/
theorem invalid_generate_400_no_writes_witness :
    (falsy (some "") || falsy (some "Instagram") || falsy (some "Excited")) = true ∧
    (postGenerate genOk emptyStore "u1"
        { topic := some "", platform := some "Instagram", tone := some "Excited" } =
      (emptyStore, GenOutcome.invalid) ∧
    GenOutcome.status GenOutcome.invalid = 400) :=
  ⟨rfl, invalid_generate_400_no_writes genOk emptyStore "u1"
    { topic := some "", platform := some "Instagram", tone := some "Excited" } rfl⟩

/-- C5: a request whose authorization header yields no (or an empty)
bearer token gets the 401 result with the store untouched, and this
holds for every verifier and every route handler — neither collaborator
is consulted. -/
theorem missing_token_401_no_calls {α : Type} (authHeader : Option String)
    (h : falsy (rawToken authHeader) = true)
    (verifier : String → Except String String)
    (handler : String → Store → Store × α) (s : Store) (inner : α → Nat) :
    handleProtected verifier handler authHeader s = (s, Handled.noToken) ∧
    Handled.statusWith inner (handleProtected verifier handler authHeader s).2 = 401 := by
  have hm : handleProtected verifier handler authHeader s = (s, Handled.noToken) := by
    cases hr : rawToken authHeader with
    | none => simp [handleProtected, hr]
    | some t =>
      rw [hr] at h
      simp only [falsy] at h
      simp [handleProtected, hr, h]
  refine ⟨hm, ?_⟩
  rw [hm]
  rfl

/-- C5 witness: a request with no authorization header is answered 401
with the store unchanged. -/
theorem missing_token_401_no_calls_witness :
    falsy (rawToken none) = true ∧
    (handleProtected genErr (fun uid st => postGenerate genOk st uid exampleBody)
        none emptyStore = (emptyStore, Handled.noToken) ∧
      Handled.statusWith GenOutcome.status
        (handleProtected genErr (fun uid st => postGenerate genOk st uid exampleBody)
          none emptyStore).2 = 401) :=
  ⟨rfl, missing_token_401_no_calls none rfl genErr
    (fun uid st => postGenerate genOk st uid exampleBody) emptyStore GenOutcome.status⟩

/-- C6: a request with a present, non-empty bearer token that the
verifier rejects gets the 403 result with the store untouched, for
every route handler — nothing beyond the verification runs. -/
theorem rejected_token_403_no_handler {α : Type} (authHeader : Option String) (tok : String)
    (hTok : rawToken authHeader = some tok) (hne : tok.isEmpty = false)
    (verifier : String → Except String String) (e : String)
    (hRej : verifier tok = Except.error e)
    (handler : String → Store → Store × α) (s : Store) (inner : α → Nat) :
    handleProtected verifier handler authHeader s = (s, Handled.badToken e) ∧
    Handled.statusWith inner (handleProtected verifier handler authHeader s).2 = 403 := by
  have hm : handleProtected verifier handler authHeader s = (s, Handled.badToken e) := by
    simp [handleProtected, hTok, hne, hRej]
  refine ⟨hm, ?_⟩
  rw [hm]
  rfl

/-- C6 witness: the header Bearer tkn1 with an always-rejecting
verifier is answered 403 with the store unchanged. -/
theorem rejected_token_403_no_handler_witness :
    rawToken (some "Bearer tkn1") = some "tkn1" ∧ ("tkn1" : String).isEmpty = false ∧
    genErr "tkn1" = Except.error "quota exceeded" ∧
    (handleProtected genErr (fun uid st => postGenerate genOk st uid exampleBody)
        (some "Bearer tkn1") emptyStore = (emptyStore, Handled.badToken "quota exceeded") ∧
      Handled.statusWith GenOutcome.status
        (handleProtected genErr (fun uid st => postGenerate genOk st uid exampleBody)
          (some "Bearer tkn1") emptyStore).2 = 403) :=
  ⟨rfl, rfl, rfl, rejected_token_403_no_handler (some "Bearer tkn1") "tkn1" rfl rfl
    genErr "quota exceeded" rfl (fun uid st => postGenerate genOk st uid exampleBody)
    emptyStore GenOutcome.status⟩

/-- C7: when the generator throws on a valid /generate body, the chat
document and the user-role message written before the call remain in
the store — the final store is exactly the input store plus those two
records, with no rollback — and the outcome is the 500 failure. -/
theorem generator_failure_no_rollback (gen : String → Except String String) (s : Store)
    (uid : String) (b : GenBody) (hT : falsy b.topic = false) (hP : falsy b.platform = false)
    (hN : falsy b.tone = false) (e : String)
    (hGen : gen (specializedPrompt (b.topic.getD "") (b.platform.getD "") (b.tone.getD "")) =
      Except.error e) :
    postGenerate gen s uid b =
      ({ chats := s.chats ++ [(uid, mkChatId s.nextId,
           { title := mkTitle (b.topic.getD ""), createdAt := s.clock })],
         messages := s.messages ++
           [(uid, mkChatId s.nextId,
             { role := "user",
               text := userRequestText (b.topic.getD "") (b.platform.getD "") (b.tone.getD ""),
               createdAt := s.clock + 1 })],
         nextId := s.nextId + 1, clock := s.clock + 2 },
       GenOutcome.failure e) ∧
    GenOutcome.status (GenOutcome.failure e) = 500 :=
  ⟨postGenerate_err_eq gen s uid b hT hP hN e hGen, rfl⟩

/-- C7 witness: the throwing generator on the example body over the
empty store leaves the chat and user message persisted and yields 500. -/
theorem generator_failure_no_rollback_witness :
    falsy exampleBody.topic = false ∧ falsy exampleBody.platform = false ∧
    falsy exampleBody.tone = false ∧
    genErr (specializedPrompt (exampleBody.topic.getD "") (exampleBody.platform.getD "")
      (exampleBody.tone.getD "")) = Except.error "quota exceeded" ∧
    (postGenerate genErr emptyStore "u1" exampleBody =
      ({ chats := emptyStore.chats ++ [("u1", mkChatId emptyStore.nextId,
           { title := mkTitle (exampleBody.topic.getD ""), createdAt := emptyStore.clock })],
         messages := emptyStore.messages ++
           [("u1", mkChatId emptyStore.nextId,
             { role := "user",
               text := userRequestText (exampleBody.topic.getD "")
                 (exampleBody.platform.getD "") (exampleBody.tone.getD ""),
               createdAt := emptyStore.clock + 1 })],
         nextId := emptyStore.nextId + 1, clock := emptyStore.clock + 2 },
       GenOutcome.failure "quota exceeded") ∧
    GenOutcome.status (GenOutcome.failure "quota exceeded") = 500) :=
  ⟨rfl, rfl, rfl, rfl,
    generator_failure_no_rollback genErr emptyStore "u1" exampleBody rfl rfl rfl
      "quota exceeded" rfl⟩

/-- Reading the message list of an explicitly given store. -/
theorem messagesFor_mk (cs : List (String × String × ChatDoc))
    (ms : List (String × String × MsgDoc)) (n c : Nat) (uid cid : String) :
    messagesFor { chats := cs, messages := ms, nextId := n, clock := c } uid cid =
      msgsUnder ms uid cid := rfl

/-- GET /chat on an explicitly given store sorts the path query. -/
theorem getChatMessages_mk (cs : List (String × String × ChatDoc))
    (ms : List (String × String × MsgDoc)) (n c : Nat) (uid cid : String) :
    getChatMessages { chats := cs, messages := ms, nextId := n, clock := c } uid cid =
      sortByCreated (msgsUnder ms uid cid) := rfl

/-- Filtering a message list to one chat path can go through the
user-level filter first: the conjunctive path predicate factors. -/
theorem filter_user_sub (l : List (String × String × MsgDoc)) (uid cid : String) :
    l.filter (fun e => e.1 == uid && e.2.1 == cid) =
      (l.filter (fun e => e.1 == uid)).filter (fun e => e.2.1 == cid) := by
  induction l with
  | nil => rfl
  | cons x xs ih =>
    simp only [List.filter_cons]
    by_cases h1 : x.1 = uid
    · by_cases h2 : x.2.1 = cid
      · simp [h1, h2, ih]
      · simp [h1, h2, ih]
    · simp [h1, ih]

/-- The two generate-request messages read back under their own path. -/
theorem msgsUnder_pair (uid cid : String) (u m : MsgDoc) :
    msgsUnder [(uid, cid, u), (uid, cid, m)] uid cid = [u, m] := by
  simp [msgsUnder]

/-- C8: a GET /chat/:chatId request for a conversation id with no chat
document under the authenticated user (in a store whose messages all
sit under existing chat documents) is answered 200 with the empty
list; moreover the handler consults no chat document at all — replacing
the chat collection by anything leaves the response unchanged, i.e. no
existence check is performed. -/
theorem unknown_chat_empty_200 (s : Store) (uid cid : String)
    (hInv : MessagesHaveChats s) (hNo : hasChat s uid cid = false) :
    getChatResp s uid cid = (200, []) ∧
    ∀ cs, getChatResp { s with chats := cs } uid cid = getChatResp s uid cid := by
  have hEmpty : msgsUnder s.messages uid cid = [] := by
    apply msgsUnder_eq_nil
    intro e he hc
    have h2 := hInv e he
    rw [hc.1, hc.2, hNo] at h2
    exact Bool.false_ne_true h2
  constructor
  · unfold getChatResp getChatMessages messagesFor
    rw [hEmpty]
    rfl
  · intro cs
    rfl

/-- A store of another user u2 holding one chat and one message, used
as the concrete instance for claims about scoping. -/
def otherUserStore : Store :=
  { chats := [("u2", "c0", { title := "Launch of new sneaker...", createdAt := 0 })],
    messages := [("u2", "c0", { role := "user", text := "hi", createdAt := 1 })],
    nextId := 1, clock := 2 }

/-- C8 witness: user u1 querying u2's chat id c0 gets 200 with the
empty list, independently of the chat documents. -/
theorem unknown_chat_empty_200_witness :
    MessagesHaveChats otherUserStore ∧ hasChat otherUserStore "u1" "c0" = false ∧
    (getChatResp otherUserStore "u1" "c0" = (200, []) ∧
     ∀ cs, getChatResp { otherUserStore with chats := cs } "u1" "c0" =
       getChatResp otherUserStore "u1" "c0") :=
  ⟨by unfold MessagesHaveChats; decide, by decide,
    unknown_chat_empty_200 otherUserStore "u1" "c0" (by unfold MessagesHaveChats; decide)
      (by decide)⟩

/-- C9: the GET /chat/:chatId response is determined by the
authenticated user's own message subtree: two stores whose message
lists agree on the entries of user uid answer identically for every
chatId, and a chatId all of whose stored messages belong to other
users yields the empty list rather than those users' messages. -/
theorem chat_query_user_scoped (s1 s2 : Store) (uid : String)
    (hSame : s1.messages.filter (fun e => e.1 == uid) =
      s2.messages.filter (fun e => e.1 == uid)) :
    (∀ cid, getChatResp s1 uid cid = getChatResp s2 uid cid) ∧
    (∀ cid, (∀ e ∈ s1.messages, e.2.1 = cid → ¬ e.1 = uid) →
      getChatResp s1 uid cid = (200, [])) := by
  constructor
  · intro cid
    unfold getChatResp getChatMessages messagesFor msgsUnder
    rw [filter_user_sub s1.messages uid cid, filter_user_sub s2.messages uid cid, hSame]
  · intro cid hOther
    have hEmpty : msgsUnder s1.messages uid cid = [] := by
      apply msgsUnder_eq_nil
      intro e he hc
      exact hOther e he hc.2 hc.1
    unfold getChatResp getChatMessages messagesFor
    rw [hEmpty]
    rfl

/-- A store holding one chat with one message for each of u1 and u2. -/
def twoUserStore : Store :=
  { chats := [("u1", "c0", { title := "mine...", createdAt := 0 }),
              ("u2", "c9", { title := "theirs...", createdAt := 0 })],
    messages := [("u1", "c0", { role := "user", text := "mine", createdAt := 1 }),
                 ("u2", "c9", { role := "user", text := "theirs", createdAt := 1 })],
    nextId := 2, clock := 2 }

/-- The same store with u2's chat and message deleted. -/
def oneUserStore : Store :=
  { chats := [("u1", "c0", { title := "mine...", createdAt := 0 })],
    messages := [("u1", "c0", { role := "user", text := "mine", createdAt := 1 })],
    nextId := 1, clock := 2 }

/-- C9 witness: deleting the other user's records leaves every
GET /chat/:chatId response of u1 unchanged, and u2's chat id c9 reads
back empty for u1. -/
theorem chat_query_user_scoped_witness :
    twoUserStore.messages.filter (fun e => e.1 == "u1") =
      oneUserStore.messages.filter (fun e => e.1 == "u1") ∧
    ((∀ cid, getChatResp twoUserStore "u1" cid = getChatResp oneUserStore "u1" cid) ∧
     (∀ cid, (∀ e ∈ twoUserStore.messages, e.2.1 = cid → ¬ e.1 = "u1") →
       getChatResp twoUserStore "u1" cid = (200, []))) :=
  ⟨by decide, chat_query_user_scoped twoUserStore oneUserStore "u1" (by decide)⟩

/-- C1: a successful POST /generate immediately followed by
GET /chat/:chatId with the returned chatId yields exactly two
messages, in order: first role user with the formatted template text,
then role model with the generator's returned text. -/
theorem generate_roundtrip (gen : String → Except String String) (s : Store) (uid : String)
    (b : GenBody) (hT : falsy b.topic = false) (hP : falsy b.platform = false)
    (hN : falsy b.tone = false) (txt : String)
    (hGen : gen (specializedPrompt (b.topic.getD "") (b.platform.getD "") (b.tone.getD "")) =
      Except.ok txt)
    (hFresh : ∀ e ∈ s.messages, ¬(e.1 = uid ∧ e.2.1 = mkChatId s.nextId)) :
    (postGenerate gen s uid b).2 =
      GenOutcome.success (mkChatId s.nextId)
        (userRequestText (b.topic.getD "") (b.platform.getD "") (b.tone.getD "")) txt ∧
    getChatMessages (postGenerate gen s uid b).1 uid (mkChatId s.nextId) =
      [{ role := "user",
         text := userRequestText (b.topic.getD "") (b.platform.getD "") (b.tone.getD ""),
         createdAt := s.clock + 1 },
       { role := "model", text := txt, createdAt := s.clock + 2 }] := by
  rw [postGenerate_ok_eq gen s uid b hT hP hN txt hGen]
  refine ⟨rfl, ?_⟩
  have hnil : msgsUnder s.messages uid (mkChatId s.nextId) = [] :=
    msgsUnder_eq_nil s.messages uid (mkChatId s.nextId) hFresh
  have hle : s.clock + 1 ≤ s.clock + 2 := by omega
  rw [getChatMessages_mk, msgsUnder_append, hnil, List.nil_append, msgsUnder_pair]
  simp [sortByCreated, insertByCreated, hle]

/-- C1 witness: the round trip on the empty store with the
specification's example body and a succeeding generator. -/
theorem generate_roundtrip_witness :
    falsy exampleBody.topic = false ∧ falsy exampleBody.platform = false ∧
    falsy exampleBody.tone = false ∧
    genOk (specializedPrompt (exampleBody.topic.getD "") (exampleBody.platform.getD "")
      (exampleBody.tone.getD "")) = Except.ok "Fresh kicks are here!" ∧
    (∀ e ∈ emptyStore.messages, ¬(e.1 = "u1" ∧ e.2.1 = mkChatId emptyStore.nextId)) ∧
    ((postGenerate genOk emptyStore "u1" exampleBody).2 =
      GenOutcome.success (mkChatId emptyStore.nextId)
        (userRequestText (exampleBody.topic.getD "") (exampleBody.platform.getD "")
          (exampleBody.tone.getD "")) "Fresh kicks are here!" ∧
    getChatMessages (postGenerate genOk emptyStore "u1" exampleBody).1 "u1"
        (mkChatId emptyStore.nextId) =
      [{ role := "user",
         text := userRequestText (exampleBody.topic.getD "") (exampleBody.platform.getD "")
           (exampleBody.tone.getD ""),
         createdAt := emptyStore.clock + 1 },
       { role := "model", text := "Fresh kicks are here!",
         createdAt := emptyStore.clock + 2 }]) :=
  ⟨rfl, rfl, rfl, rfl, by decide,
    generate_roundtrip genOk emptyStore "u1" exampleBody rfl rfl rfl "Fresh kicks are here!"
      rfl (by decide)⟩

/-- C10: the 200 response of a successful /generate is consistent with
the persisted state: its chatId names the conversation created by the
request, and the userRequest and response fields equal, character for
character, the texts of the persisted user-role and model-role
messages under that conversation. -/
theorem generate_response_matches_store (gen : String → Except String String) (s : Store)
    (uid : String) (b : GenBody) (hT : falsy b.topic = false) (hP : falsy b.platform = false)
    (hN : falsy b.tone = false) (txt : String)
    (hGen : gen (specializedPrompt (b.topic.getD "") (b.platform.getD "") (b.tone.getD "")) =
      Except.ok txt)
    (hFresh : ∀ e ∈ s.messages, ¬(e.1 = uid ∧ e.2.1 = mkChatId s.nextId)) :
    (postGenerate gen s uid b).2 =
      GenOutcome.success (mkChatId s.nextId)
        (userRequestText (b.topic.getD "") (b.platform.getD "") (b.tone.getD "")) txt ∧
    (uid, mkChatId s.nextId,
      ({ title := mkTitle (b.topic.getD ""), createdAt := s.clock } : ChatDoc)) ∈
      (postGenerate gen s uid b).1.chats ∧
    messagesFor (postGenerate gen s uid b).1 uid (mkChatId s.nextId) =
      [{ role := "user",
         text := userRequestText (b.topic.getD "") (b.platform.getD "") (b.tone.getD ""),
         createdAt := s.clock + 1 },
       { role := "model", text := txt, createdAt := s.clock + 2 }] := by
  rw [postGenerate_ok_eq gen s uid b hT hP hN txt hGen]
  have hnil : msgsUnder s.messages uid (mkChatId s.nextId) = [] :=
    msgsUnder_eq_nil s.messages uid (mkChatId s.nextId) hFresh
  refine ⟨rfl, ?_, ?_⟩
  · simp
  · rw [messagesFor_mk, msgsUnder_append, hnil, List.nil_append, msgsUnder_pair]

/-- C10 witness: response/store consistency on the empty store with the
example body and a succeeding generator. -/
theorem generate_response_matches_store_witness :
    falsy exampleBody.topic = false ∧ falsy exampleBody.platform = false ∧
    falsy exampleBody.tone = false ∧
    genOk (specializedPrompt (exampleBody.topic.getD "") (exampleBody.platform.getD "")
      (exampleBody.tone.getD "")) = Except.ok "Fresh kicks are here!" ∧
    (∀ e ∈ emptyStore.messages, ¬(e.1 = "u1" ∧ e.2.1 = mkChatId emptyStore.nextId)) ∧
    ((postGenerate genOk emptyStore "u1" exampleBody).2 =
      GenOutcome.success (mkChatId emptyStore.nextId)
        (userRequestText (exampleBody.topic.getD "") (exampleBody.platform.getD "")
          (exampleBody.tone.getD "")) "Fresh kicks are here!" ∧
    ("u1", mkChatId emptyStore.nextId,
      ({ title := mkTitle (exampleBody.topic.getD ""),
         createdAt := emptyStore.clock } : ChatDoc)) ∈
      (postGenerate genOk emptyStore "u1" exampleBody).1.chats ∧
    messagesFor (postGenerate genOk emptyStore "u1" exampleBody).1 "u1"
        (mkChatId emptyStore.nextId) =
      [{ role := "user",
         text := userRequestText (exampleBody.topic.getD "") (exampleBody.platform.getD "")
           (exampleBody.tone.getD ""),
         createdAt := emptyStore.clock + 1 },
       { role := "model", text := "Fresh kicks are here!",
         createdAt := emptyStore.clock + 2 }]) :=
  ⟨rfl, rfl, rfl, rfl, by decide,
    generate_response_matches_store genOk emptyStore "u1" exampleBody rfl rfl rfl
      "Fresh kicks are here!" rfl (by decide)⟩

end ContentStudio
